import Mathlib

/-!
Shallow embedding of the GMG Cloud integration core
(custom_components/gmg_cloud: api.py, __init__.py, const.py).

Strings are modelled as lists of byte values (UTF-8), so that
urllib.parse.quote — which percent-encodes byte-by-byte — can be embedded
faithfully.  HTTP interaction is modelled by a scripted trace of responses:
each attempt of a request consumes the next entry of the trace, so the
recursive retry-on-401 structure of the source becomes structural recursion
on the trace.  A run that exhausts its trace (the code would issue yet
another network attempt) is reported as `outOfTrace`.
-/

namespace GmgCloud

/-- Byte string (UTF-8 bytes of a Python `str`). -/
abbrev Str := List Nat

/-! ## const.py -/

/-- const.py: default / fallback scan interval (seconds). -/
def SCAN_INTERVAL : Nat := 30

/-- const.py: interval when any grill is on (grillState > 0). -/
def SCAN_INTERVAL_ACTIVE : Nat := 2

/-- const.py: interval when all grills are off. -/
def SCAN_INTERVAL_IDLE : Nat := 60

/-- const.py: interval right after a command is sent. -/
def SCAN_INTERVAL_BURST : Nat := 1

/-- const.py: how long burst mode lasts (seconds). -/
def SCAN_BURST_DURATION : Nat := 30

/-! ## Device records (grill dicts from the cloud directory) -/

/-- A device record as used by api.py: a dict which may or may not carry
the `connectionType` and `grillId` keys.  (`none` models an absent key.) -/
structure Grill where
  connectionType : Option Str
  grillId : Option Str
  deriving Repr, DecidableEq

/-- Python truthiness of `grill.get("grillId")`: the key is present and the
string is non-empty. -/
def truthyStr : Option Str → Bool
  | none => false
  | some s => !s.isEmpty

/-! ## urllib.parse.quote with safe="" -/

/-- Bytes urllib.parse.quote never escapes: ASCII letters, digits,
and the marks `_.-~`. -/
def quoteSafe (b : Nat) : Bool :=
  (65 ≤ b && b ≤ 90) || (97 ≤ b && b ≤ 122) || (48 ≤ b && b ≤ 57) ||
    (b == 45) || (b == 46) || (b == 95) || (b == 126)

/-- Uppercase hexadecimal digit character for a value below 16. -/
def hexUpper (n : Nat) : Nat :=
  if n < 10 then 48 + n else 55 + n

/-- Percent-encoding of one byte: kept verbatim when safe, otherwise
`%XX` with uppercase hex. -/
def quoteByte (b : Nat) : List Nat :=
  if quoteSafe b then [b] else [37, hexUpper (b / 16), hexUpper (b % 16)]

/-- urllib.parse.quote(s, safe=""): byte-wise percent-encoding. -/
def quote (s : Str) : Str :=
  s.flatMap quoteByte

/-- The UTF-8 bytes of the string "remote". -/
def remoteBytes : Str := [114, 101, 109, 111, 116, 101]

/-! ## api.py: path and header construction -/

/-- api.py `_grill_path`: `quote(f"{conn_type}|{grill_id}", safe="")` with
`conn_type = grill.get("connectionType", "remote")` and
`grill_id = grill.get("grillId", "")`. -/
def grill_path (grill : Grill) : Str :=
  let conn_type := grill.connectionType.getD remoteBytes
  let grill_id := grill.grillId.getD []
  quote (conn_type ++ [124] ++ grill_id)

/-- The two headers built by api.py `_headers` (a dict with exactly the
keys Authorization and Content-Type). -/
structure Headers where
  authorization : Str
  contentType : Str
  deriving Repr, DecidableEq

/-- The UTF-8 bytes of "application/json". -/
def applicationJsonBytes : Str :=
  [97, 112, 112, 108, 105, 99, 97, 116, 105, 111, 110, 47, 106, 115, 111, 110]

/-- api.py `_headers`: `{"Authorization": self._id_token,
"Content-Type": "application/json"}` — the raw token, no scheme prefix. -/
def headersOf (id_token : Str) : Headers :=
  { authorization := id_token, contentType := applicationJsonBytes }

/-! ## api.py: session state and authentication -/

/-- The mutable client state of `GMGCloudApi`: the current id token
(`None` before authentication), whether a Cognito instance is stored
(for token renewal), and the cached grill directory. -/
structure ApiState where
  id_token : Option Str
  cognito : Bool
  grills : List Grill
  deriving Repr, DecidableEq

/-- `GMGAuthError`, the exception `async_authenticate` raises. -/
inductive GMGAuthError where
  | authFailed
  deriving Repr, DecidableEq

/-- Environment outcome of one `_sync_authenticate` call: either the
Cognito handshake completes (storing the Cognito instance and returning
its id token, which pycognito types as optional), or it raises. -/
inductive AuthOutcome where
  | success (id_token : Option Str)
  | raises
  deriving Repr, DecidableEq

/-- Environment outcome of one `_sync_refresh_token` call: either
`renew_access_token` completes and `id_token` becomes the Cognito
instance's current id token, or it raises. -/
inductive RenewOutcome where
  | renewed (id_token : Option Str)
  | raises
  deriving Repr, DecidableEq

/-- One potential `_async_refresh_token` call's environment: the renewal
outcome, and the authentication outcome used if it falls back. -/
structure RefreshSpec where
  renew : RenewOutcome
  auth : AuthOutcome
  deriving Repr, DecidableEq

/-- api.py `async_authenticate`: runs `_sync_authenticate`; on success
stores the token and returns whether it is non-null; on any exception
raises `GMGAuthError`. -/
def async_authenticate (st : ApiState) (o : AuthOutcome) :
    Except GMGAuthError (Bool × ApiState) :=
  match o with
  | .success tok => .ok (tok.isSome, { st with id_token := tok, cognito := true })
  | .raises => .error .authFailed

/-- api.py `_async_refresh_token`: with no stored Cognito instance,
delegates to `async_authenticate`; otherwise tries `_sync_refresh_token`
and returns `True`, falling back to `async_authenticate` if the renewal
raises. -/
def async_refresh_token (st : ApiState) (r : RefreshSpec) :
    Except GMGAuthError (Bool × ApiState) :=
  if st.cognito = false then
    async_authenticate st r.auth
  else
    match r.renew with
    | .renewed tok => .ok (true, { st with id_token := tok })
    | .raises => async_authenticate st r.auth

/-! ## api.py: HTTP-level calls over a scripted response trace -/

/-- One scripted HTTP attempt outcome: a status code with the decoded
body a 200 would yield, or a transport exception. -/
inductive HttpAttempt (β : Type) where
  | status (code : Nat) (body : β)
  | exn
  deriving Repr, DecidableEq

/-- Result of running one api.py call against a scripted trace:
the value the Python call returns, the `GMGApiError` it raises when no
token is present, or `outOfTrace` when the code would issue one more
network attempt than the script provides. -/
inductive CallResult (α : Type) where
  | ok (v : α)
  | raised
  | outOfTrace
  deriving Repr, DecidableEq

/-- A device state snapshot: the decoded JSON dict, of which the
scheduler reads the `grillState` field (absent when the key is missing). -/
structure Snap where
  grillState : Option Int
  deriving Repr, DecidableEq

/-- api.py `async_get_grill_state`: raises `GMGApiError` when the token
is falsy (`if not self._id_token`: missing or empty);
200 decodes a snapshot; 401/403 refreshes the token and, when the refresh
reports success, retries the whole call (any exception, including one
raised inside the retried call, is caught and yields `None`); 404 and all
other statuses or transport errors yield `None`. -/
def async_get_grill_state (st : ApiState) (trace : List (HttpAttempt Snap))
    (refreshes : List RefreshSpec) : CallResult (Option Snap) × ApiState :=
  if truthyStr st.id_token = false then (.raised, st)
  else
    match trace with
    | [] => (.outOfTrace, st)
    | resp :: rest =>
      match resp with
      | .status code body =>
        if code = 200 then
          (.ok (some body), st)
        else if code = 401 ∨ code = 403 then
          match refreshes with
          | [] => (.outOfTrace, st)
          | r :: rrest =>
            match async_refresh_token st r with
            | .error _ => (.ok none, st)
            | .ok (true, st1) =>
              match async_get_grill_state st1 rest rrest with
              | (.raised, st2) => (.ok none, st2)
              | other => other
            | .ok (false, st1) => (.ok none, st1)
        else if code = 404 then
          (.ok none, st)
        else
          (.ok none, st)
      | .exn => (.ok none, st)

/-- api.py `async_send_command`: raises `GMGApiError` when the token is
falsy (`if not self._id_token`: missing or empty); 200/201/202
return `True`; 401/403 refresh the token and, when the refresh reports
success, retry the whole call (a raise inside the retried call is caught
and yields `False`); every other status or transport error yields
`False`. -/
def async_send_command (st : ApiState) (trace : List (HttpAttempt Unit))
    (refreshes : List RefreshSpec) : CallResult Bool × ApiState :=
  if truthyStr st.id_token = false then (.raised, st)
  else
    match trace with
    | [] => (.outOfTrace, st)
    | resp :: rest =>
      match resp with
      | .status code _ =>
        if code = 200 ∨ code = 201 ∨ code = 202 then
          (.ok true, st)
        else if code = 401 ∨ code = 403 then
          match refreshes with
          | [] => (.outOfTrace, st)
          | r :: rrest =>
            match async_refresh_token st r with
            | .error _ => (.ok false, st)
            | .ok (true, st1) =>
              match async_send_command st1 rest rrest with
              | (.raised, st2) => (.ok false, st2)
              | other => other
            | .ok (false, st1) => (.ok false, st1)
        else
          (.ok false, st)
      | .exn => (.ok false, st)

/-- api.py `async_get_grills`: raises `GMGApiError` when the token is
falsy (`if not self._id_token`: missing or empty); a 200 stores
the decoded directory in `self._grills` and returns it; 401/403 refresh
and, on reported success, retry the whole call (a raise inside the retried
call is caught and yields `[]`); every other status or transport error
yields `[]` and leaves the cache untouched. -/
def async_get_grills (st : ApiState) (trace : List (HttpAttempt (List Grill)))
    (refreshes : List RefreshSpec) : CallResult (List Grill) × ApiState :=
  if truthyStr st.id_token = false then (.raised, st)
  else
    match trace with
    | [] => (.outOfTrace, st)
    | resp :: rest =>
      match resp with
      | .status code body =>
        if code = 200 then
          (.ok body, { st with grills := body })
        else if code = 401 ∨ code = 403 then
          match refreshes with
          | [] => (.outOfTrace, st)
          | r :: rrest =>
            match async_refresh_token st r with
            | .error _ => (.ok [], st)
            | .ok (true, st1) =>
              match async_get_grills st1 rest rrest with
              | (.raised, st2) => (.ok [], st2)
              | other => other
            | .ok (false, st1) => (.ok [], st1)
        else
          (.ok [], st)
      | .exn => (.ok [], st)

/-- api.py `get_cached_grills`: returns `self._grills`, no I/O. -/
def get_cached_grills (st : ApiState) : List Grill :=
  st.grills

/-! ## __init__.py: coordinator tick and burst mode -/

/-- One value of the per-grill dict assembled by `async_update_data`:
`{"info": grill, "state": state, "online": state is not None}`. -/
structure GrillEntry where
  info : Grill
  state : Option Snap
  online : Bool
  deriving Repr, DecidableEq

/-- Python dict assignment `d[k] = v`: overwrites in place when the key
exists, appends otherwise. -/
def dictInsert (d : List (Str × GrillEntry)) (k : Str) (v : GrillEntry) :
    List (Str × GrillEntry) :=
  if d.any (fun p => p.1 = k) then
    d.map (fun p => if p.1 = k then (k, v) else p)
  else
    d ++ [(k, v)]

/-- `state and state.get("grillState", 0) > 0` for one fetched snapshot.
(The dict-truthiness guard is equivalent to the bare comparison here: an
empty dict makes `.get` return the default 0, failing `> 0` either way.) -/
def snapActive : Option Snap → Bool
  | none => false
  | some sn => decide (0 < sn.grillState.getD 0)

/-- The body of the `for grill in api.get_cached_grills()` loop of
`async_update_data`, folded over the cached devices paired with the
snapshot each `async_get_grill_state` call yields: devices whose
`grillId` is missing or empty are skipped entirely. -/
def tickLoop (devs : List (Grill × Option Snap))
    (acc : List (Str × GrillEntry) × Bool) : List (Str × GrillEntry) × Bool :=
  match devs with
  | [] => acc
  | (grill, state) :: rest =>
    if truthyStr grill.grillId then
      tickLoop rest
        (dictInsert acc.1 (grill.grillId.getD [])
          { info := grill, state := state, online := state.isSome },
         acc.2 || snapActive state)
    else
      tickLoop rest acc

/-- The interval selection of `async_update_data`: burst while
`now < burst_state["until"]`, else active when any fetched snapshot had
`grillState > 0`, else idle. -/
def new_interval (now burst_until : Int) (any_active : Bool) : Nat :=
  if now < burst_until then SCAN_INTERVAL_BURST
  else if any_active then SCAN_INTERVAL_ACTIVE
  else SCAN_INTERVAL_IDLE

/-- `coordinator.update_interval` is reassigned only when it differs from
the computed interval. -/
def applyInterval (current target : Nat) : Nat :=
  if current ≠ target then target else current

/-- What one `async_update_data` tick publishes and schedules: the
per-grill dataset, and the interval scheduled for the next tick. -/
structure TickResult where
  dataset : List (Str × GrillEntry)
  interval : Nat
  deriving Repr, DecidableEq

/-- One full `async_update_data` tick over the cached devices (each paired
with its fetched snapshot), the current monotonic time, the burst expiry,
and the currently scheduled interval. -/
def async_update_data (devs : List (Grill × Option Snap))
    (now burst_until : Int) (current_interval : Nat) : TickResult :=
  let r := tickLoop devs ([], false)
  { dataset := r.1,
    interval := applyInterval current_interval (new_interval now burst_until r.2) }

/-- __init__.py `trigger_burst`: sets `burst_state["until"]` to
`now + SCAN_BURST_DURATION` and the coordinator interval to the burst
interval.  Returns (new burst expiry, new scheduled interval). -/
def trigger_burst (now : Int) : Int × Nat :=
  (now + (SCAN_BURST_DURATION : Int), SCAN_INTERVAL_BURST)

/-! ## Auxiliary predicates for the statements -/

/-- Uppercase hexadecimal digit character (0-9, A-F). -/
def isHexUpperDigit (b : Nat) : Bool :=
  (48 ≤ b && b ≤ 57) || (65 ≤ b && b ≤ 70)

/-- A byte string is a syntactically valid percent-encoded path segment:
every byte is either an unreserved byte or starts a `%XX` triple with
uppercase hexadecimal digits. -/
def validEncoded : Str → Bool
  | [] => true
  | b :: rest =>
    if b = 37 then
      match rest with
      | h1 :: h2 :: rest2 => isHexUpperDigit h1 && isHexUpperDigit h2 && validEncoded rest2
      | _ => false
    else
      quoteSafe b && validEncoded rest

/-- Spec-side effective-interval rule (for refinement comparison), following
the spec's precedence with the running test amended to "operating-mode code
greater than zero": burst while the expiry is in the future, else active when
some swept device is running, else idle. -/
def specEffectiveInterval (burstActive running : Bool) : Nat :=
  if burstActive then SCAN_INTERVAL_BURST
  else if running then SCAN_INTERVAL_ACTIVE
  else SCAN_INTERVAL_IDLE

/-- Spec-side "any device of the completed sweep is running": some cached
device that was actually swept (its id is present and non-empty) has a
present snapshot whose operating-mode code is greater than zero. -/
def sweptRunning (devs : List (Grill × Option Snap)) : Bool :=
  devs.any (fun p =>
    truthyStr p.1.grillId &&
      match p.2 with
      | some sn => decide (0 < sn.grillState.getD 0)
      | none => false)

/-- The per-device dataset entry built inside the tick loop. -/
def entryOf (p : Grill × Option Snap) : Str × GrillEntry :=
  (p.1.grillId.getD [], { info := p.1, state := p.2, online := p.2.isSome })

/-- A concrete two-device sweep: ids "a" and "b", the first online with a
running snapshot, the second offline. -/
def twoDeviceSweep : List (Grill × Option Snap) :=
  [(⟨some remoteBytes, some [97]⟩, some ⟨some 1⟩), (⟨none, some [98]⟩, none)]

/-! ## Helper lemmas -/

theorem isHexUpperDigit_hexUpper : ∀ n < 16, isHexUpperDigit (hexUpper n) = true := by
  decide

theorem quote_append (a b : Str) : quote (a ++ b) = quote a ++ quote b := by
  simp [quote]

theorem validEncoded_cons_safe (b : Nat) (l : Str) (h37 : ¬ b = 37) :
    validEncoded (b :: l) = (quoteSafe b && validEncoded l) := by
  conv_lhs => rw [validEncoded.eq_def]
  simp [h37]

theorem validEncoded_triple (h1 h2 : Nat) (l : Str) :
    validEncoded (37 :: h1 :: h2 :: l) =
      (isHexUpperDigit h1 && isHexUpperDigit h2 && validEncoded l) := by
  conv_lhs => rw [validEncoded.eq_def]
  simp

theorem validEncoded_quote : ∀ (s : Str), (∀ b ∈ s, b < 256) → validEncoded (quote s) = true := by
  intro s
  induction s with
  | nil => intro _; rfl
  | cons b rest ih =>
    intro h
    have hb : b < 256 := h b (List.mem_cons_self b rest)
    have hrest : ∀ x ∈ rest, x < 256 := fun x hx => h x (List.mem_cons_of_mem b hx)
    show validEncoded (quoteByte b ++ quote rest) = true
    by_cases hsafe : quoteSafe b = true
    · have hqb : quoteByte b = [b] := by simp [quoteByte, hsafe]
      have hb37 : ¬ b = 37 := by
        intro e
        subst e
        simp [quoteSafe] at hsafe
      rw [hqb, List.cons_append, List.nil_append, validEncoded_cons_safe b _ hb37]
      simp [hsafe, ih hrest]
    · have hqb : quoteByte b = [37, hexUpper (b / 16), hexUpper (b % 16)] := by
        simp [quoteByte, hsafe]
      have hdiv : b / 16 < 16 := Nat.div_lt_of_lt_mul (by omega)
      have hmod : b % 16 < 16 := Nat.mod_lt b (by norm_num)
      rw [hqb]
      show validEncoded (37 :: hexUpper (b / 16) :: hexUpper (b % 16) :: quote rest) = true
      rw [validEncoded_triple]
      simp [isHexUpperDigit_hexUpper _ hdiv, isHexUpperDigit_hexUpper _ hmod, ih hrest]

theorem applyInterval_eq (c t : Nat) : applyInterval c t = t := by
  unfold applyInterval
  split <;> omega

/-! ## Claim theorems -/

/-- C4: `trigger_burst` sets the burst expiry to now + SCAN_BURST_DURATION
and immediately applies the burst interval as the scheduled interval;
re-arming at a later (monotonic) instant never shortens the window. -/
theorem c4_burst_rearm (now1 now2 : Int) (h : now1 ≤ now2) :
    (trigger_burst now1).1 = now1 + (SCAN_BURST_DURATION : Int) ∧
    (trigger_burst now1).2 = SCAN_INTERVAL_BURST ∧
    (trigger_burst now1).1 ≤ (trigger_burst now2).1 := by
  refine ⟨rfl, rfl, ?_⟩
  simp only [trigger_burst]
  omega

/-- Witness for C4 at now1 = 0, now2 = 1. -/
theorem c4_burst_rearm_witness :
    (0 : Int) ≤ 1 ∧
    ((trigger_burst 0).1 = 0 + (SCAN_BURST_DURATION : Int) ∧
     (trigger_burst 0).2 = SCAN_INTERVAL_BURST ∧
     (trigger_burst 0).1 ≤ (trigger_burst 1).1) :=
  ⟨by decide, c4_burst_rearm 0 1 (by decide)⟩

/-- C8: the grill path segment is the percent-encoding of the connection
type, then the percent-encoded separator bar (`%7C`), then the
percent-encoding of the device id; and the Authorization header carries the
raw token with no scheme prefix. -/
theorem c8_path_and_header (g : Grill) (tok : Str) :
    grill_path g =
      quote (g.connectionType.getD remoteBytes) ++ [37, 55, 67] ++
        quote (g.grillId.getD []) ∧
    (headersOf tok).authorization = tok := by
  refine ⟨?_, rfl⟩
  show quote ((g.connectionType.getD remoteBytes) ++ [124] ++ (g.grillId.getD [])) = _
  rw [quote_append, quote_append]
  rfl

/-- C10: `_grill_path` is total over arbitrary device records: a record
missing `connectionType` is addressed with the default "remote", a record
missing `grillId` with the empty identifier, and the output is always a
syntactically valid percent-encoded path segment. -/
theorem c10_path_total (g : Grill)
    (h : ∀ b ∈ (g.connectionType.getD remoteBytes) ++ [124] ++ (g.grillId.getD []),
      b < 256) :
    (g.connectionType = none →
      grill_path g = quote (remoteBytes ++ [124] ++ g.grillId.getD [])) ∧
    (g.grillId = none →
      grill_path g = quote (g.connectionType.getD remoteBytes ++ [124])) ∧
    validEncoded (grill_path g) = true := by
  refine ⟨?_, ?_, validEncoded_quote _ h⟩
  · intro hc
    simp [grill_path, hc]
  · intro hg
    simp [grill_path, hg]

/-- Witness for C10 at the record with both keys absent. -/
theorem c10_path_total_witness :
    (∀ b ∈ ((none : Option Str).getD remoteBytes) ++ [124] ++
        ((none : Option Str).getD []), b < 256) ∧
    (((none : Option Str) = none →
      grill_path ⟨none, none⟩ = quote (remoteBytes ++ [124] ++ (none : Option Str).getD [])) ∧
     ((none : Option Str) = none →
      grill_path ⟨none, none⟩ = quote ((none : Option Str).getD remoteBytes ++ [124])) ∧
     validEncoded (grill_path ⟨none, none⟩) = true) :=
  ⟨by decide, c10_path_total ⟨none, none⟩ (by decide)⟩

/-- C5 counterexample: with a stored Cognito instance, a failing renewal
and a failing fallback authentication, `_async_refresh_token` raises
`GMGAuthError` instead of returning a boolean. -/
theorem c5_counterexample :
    async_refresh_token ⟨some [116], true, []⟩ ⟨.raises, .raises⟩ =
      .error .authFailed := rfl

/-- C5 amended: `_async_refresh_token` delegates to full authentication when
no Cognito instance is stored; on a renewal failure it falls back to a full
authenticate; a successful renewal returns True with the renewed token; and
it raises (rather than returning False) exactly when the authentication it
delegated to raises. -/
theorem c5_amended (st : ApiState) (r : RefreshSpec) :
    (st.cognito = false → async_refresh_token st r = async_authenticate st r.auth) ∧
    (∀ tok, st.cognito = true → r.renew = .renewed tok →
      async_refresh_token st r = .ok (true, { st with id_token := tok })) ∧
    (st.cognito = true → r.renew = .raises →
      async_refresh_token st r = async_authenticate st r.auth) ∧
    (∀ e, async_refresh_token st r = .error e → r.auth = .raises) := by
  obtain ⟨rn, au⟩ := r
  refine ⟨?_, ?_, ?_, ?_⟩
  · intro hc
    simp [async_refresh_token, hc]
  · intro tok hc hr
    simp only at hr
    subst hr
    simp [async_refresh_token, hc]
  · intro hc hr
    simp only at hr
    subst hr
    simp [async_refresh_token, hc]
  · intro e he
    cases au with
    | success tok =>
      exfalso
      cases hc : st.cognito <;> cases rn <;>
        simp [async_refresh_token, async_authenticate, hc] at he
    | raises => rfl

/-- Witness for C5 amended at a state with no Cognito instance. -/
theorem c5_amended_witness :
    (⟨none, false, []⟩ : ApiState).cognito = false ∧
    async_refresh_token ⟨none, false, []⟩ ⟨.raises, .success (some [116])⟩ =
      async_authenticate ⟨none, false, []⟩ (.success (some [116])) :=
  ⟨by decide, (c5_amended ⟨none, false, []⟩ ⟨.raises, .success (some [116])⟩).1 (by decide)⟩

theorem snapActive_eq (s : Option Snap) :
    (match s with
      | some sn => decide (0 < sn.grillState.getD 0)
      | none => false) = snapActive s := by
  cases s <;> rfl

theorem tickLoop_snd (devs : List (Grill × Option Snap)) :
    ∀ (d : List (Str × GrillEntry)) (a : Bool),
      (tickLoop devs (d, a)).2 =
        (a || devs.any (fun p => truthyStr p.1.grillId && snapActive p.2)) := by
  induction devs with
  | nil => intro d a; simp [tickLoop]
  | cons p rest ih =>
    intro d a
    obtain ⟨g, s⟩ := p
    by_cases hg : truthyStr g.grillId = true
    · simp [tickLoop, hg, ih, Bool.or_assoc]
    · simp [tickLoop, hg, ih, Bool.eq_false_iff.mpr hg]

theorem dictInsert_fresh (d : List (Str × GrillEntry)) (k : Str) (v : GrillEntry)
    (h : ∀ p ∈ d, p.1 ≠ k) : dictInsert d k v = d ++ [(k, v)] := by
  unfold dictInsert
  rw [if_neg]
  simp only [List.any_eq_true, decide_eq_true_eq, not_exists, not_and]
  intro p hp
  exact h p hp

theorem tickLoop_fst (devs : List (Grill × Option Snap)) :
    ∀ (d : List (Str × GrillEntry)) (a : Bool),
      (∀ p ∈ devs, truthyStr p.1.grillId = true) →
      (devs.map (fun p => p.1.grillId.getD [])).Nodup →
      (∀ q ∈ d, ∀ p ∈ devs, q.1 ≠ p.1.grillId.getD []) →
      (tickLoop devs (d, a)).1 = d ++ devs.map entryOf := by
  induction devs with
  | nil => intro d a _ _ _; simp [tickLoop]
  | cons p rest ih =>
    intro d a h1 h2 h3
    obtain ⟨g, s⟩ := p
    have hg : truthyStr g.grillId = true := h1 _ (List.mem_cons_self _ _)
    have hfresh : ∀ q ∈ d, q.1 ≠ g.grillId.getD [] := fun q hq =>
      h3 q hq _ (List.mem_cons_self _ _)
    have hnotin : (g.grillId.getD []) ∉ rest.map (fun p => p.1.grillId.getD []) := by
      have := h2
      simp only [List.map_cons, List.nodup_cons] at this
      exact this.1
    simp only [tickLoop, hg, if_pos]
    rw [dictInsert_fresh _ _ _ hfresh]
    have hrec := ih
      (d ++ [(g.grillId.getD [], { info := g, state := s, online := s.isSome })])
      (a || snapActive s)
      (fun p hp => h1 p (List.mem_cons_of_mem _ hp))
      (by
        have := h2
        simp only [List.map_cons, List.nodup_cons] at this
        exact this.2)
      (by
        intro q hq p hp
        rcases List.mem_append.mp hq with hq1 | hq2
        · exact h3 q hq1 p (List.mem_cons_of_mem _ hp)
        · have hq3 : q = (g.grillId.getD [], { info := g, state := s, online := s.isSome }) := by
            simpa using hq2
          subst hq3
          simp only
          intro he
          apply hnotin
          rw [he]
          exact List.mem_map_of_mem (fun p => p.1.grillId.getD []) hp)
    rw [hrec]
    simp [entryOf]

/-- C2 counterexample: burst inactive, one swept device whose snapshot has
the non-zero operating-mode code -1; the tick schedules the idle interval,
not the active interval the claim requires for a non-zero code. -/
theorem c2_counterexample :
    (async_update_data [(⟨some remoteBytes, some [97]⟩, some ⟨some (-1)⟩)]
        0 0 SCAN_INTERVAL).interval = SCAN_INTERVAL_IDLE ∧
    SCAN_INTERVAL_IDLE ≠ SCAN_INTERVAL_ACTIVE ∧
    ¬ ((0 : Int) < 0) ∧
    ((⟨some (-1)⟩ : Snap).grillState.getD 0 ≠ 0) := by
  decide

/-- C2 amended: the interval scheduled at the end of every tick follows the
exact precedence burst / active / idle, where "active" requires some swept
device's snapshot to carry an operating-mode code greater than zero (not
merely non-zero). -/
theorem c2_interval_precedence (devs : List (Grill × Option Snap))
    (now burst_until : Int) (cur : Nat) :
    (async_update_data devs now burst_until cur).interval =
      specEffectiveInterval (decide (now < burst_until)) (sweptRunning devs) := by
  unfold async_update_data specEffectiveInterval new_interval sweptRunning
  simp only [tickLoop_snd, Bool.false_or, applyInterval_eq, snapActive_eq]
  by_cases hb : now < burst_until
  · simp [hb]
  · simp [hb]

/-- C3 counterexample: one cached device whose record has no `grillId` key;
the published dataset is empty instead of containing exactly one entry. -/
theorem c3_counterexample :
    (async_update_data [((⟨some remoteBytes, none⟩ : Grill), some (⟨some 1⟩ : Snap))]
        0 0 SCAN_INTERVAL).dataset.length = 0 ∧
    [((⟨some remoteBytes, none⟩ : Grill), some (⟨some 1⟩ : Snap))].length = 1 := by
  decide

/-- C3 amended: when every cached device carries a present, non-empty
`grillId` and those ids are pairwise distinct, the published dataset holds
exactly one entry per cached device (in order), and each entry's online
flag is true iff that device's snapshot is present. -/
theorem c3_dataset_entries (devs : List (Grill × Option Snap))
    (h1 : ∀ p ∈ devs, truthyStr p.1.grillId = true)
    (h2 : (devs.map (fun p => p.1.grillId.getD [])).Nodup)
    (now burst_until : Int) (cur : Nat) :
    (async_update_data devs now burst_until cur).dataset = devs.map entryOf ∧
    ∀ e ∈ (async_update_data devs now burst_until cur).dataset,
      e.2.online = e.2.state.isSome := by
  have hd : (async_update_data devs now burst_until cur).dataset = devs.map entryOf := by
    have := tickLoop_fst devs [] false h1 h2 (by simp)
    simpa [async_update_data] using this
  refine ⟨hd, ?_⟩
  intro e he
  rw [hd] at he
  obtain ⟨p, _, hp⟩ := List.mem_map.mp he
  subst hp
  rfl

/-- Witness for C3 amended at two devices with distinct ids, one online and
one offline. -/
theorem c3_dataset_entries_witness :
    (∀ p ∈ twoDeviceSweep, truthyStr p.1.grillId = true) ∧
    (twoDeviceSweep.map (fun p => p.1.grillId.getD [])).Nodup ∧
    ((async_update_data twoDeviceSweep 0 0 30).dataset = twoDeviceSweep.map entryOf ∧
     ∀ e ∈ (async_update_data twoDeviceSweep 0 0 30).dataset,
       e.2.online = e.2.state.isSome) :=
  ⟨by decide, by decide,
    c3_dataset_entries twoDeviceSweep (by decide) (by decide) 0 0 30⟩

theorem get_grill_state_step_status (c : Nat) (t : Str) (cog : Bool) (gr : List Grill)
    (code : Nat) (body : Snap) (rest : List (HttpAttempt Snap)) (rs : List RefreshSpec) :
    async_get_grill_state ⟨some (c :: t), cog, gr⟩ (.status code body :: rest) rs =
      (if code = 200 then (.ok (some body), (⟨some (c :: t), cog, gr⟩ : ApiState))
       else if code = 401 ∨ code = 403 then
         (match rs with
          | [] => (.outOfTrace, (⟨some (c :: t), cog, gr⟩ : ApiState))
          | r :: rrest =>
            match async_refresh_token ⟨some (c :: t), cog, gr⟩ r with
            | .error _ => (.ok none, (⟨some (c :: t), cog, gr⟩ : ApiState))
            | .ok (true, st1) =>
              match async_get_grill_state st1 rest rrest with
              | (.raised, st2) => (.ok none, st2)
              | other => other
            | .ok (false, st1) => (.ok none, st1))
       else if code = 404 then (.ok none, (⟨some (c :: t), cog, gr⟩ : ApiState))
       else (.ok none, (⟨some (c :: t), cog, gr⟩ : ApiState))) := rfl

theorem get_grill_state_step_401 (c : Nat) (t : Str) (cog : Bool) (gr : List Grill)
    (body : Snap) (rest : List (HttpAttempt Snap)) (r : RefreshSpec)
    (rrest : List RefreshSpec) :
    async_get_grill_state ⟨some (c :: t), cog, gr⟩ (.status 401 body :: rest) (r :: rrest) =
      (match async_refresh_token ⟨some (c :: t), cog, gr⟩ r with
       | .error _ => (.ok none, (⟨some (c :: t), cog, gr⟩ : ApiState))
       | .ok (true, st1) =>
         match async_get_grill_state st1 rest rrest with
         | (.raised, st2) => (.ok none, st2)
         | other => other
       | .ok (false, st1) => (.ok none, st1)) := rfl

theorem get_grill_state_step_403 (c : Nat) (t : Str) (cog : Bool) (gr : List Grill)
    (body : Snap) (rest : List (HttpAttempt Snap)) (r : RefreshSpec)
    (rrest : List RefreshSpec) :
    async_get_grill_state ⟨some (c :: t), cog, gr⟩ (.status 403 body :: rest) (r :: rrest) =
      (match async_refresh_token ⟨some (c :: t), cog, gr⟩ r with
       | .error _ => (.ok none, (⟨some (c :: t), cog, gr⟩ : ApiState))
       | .ok (true, st1) =>
         match async_get_grill_state st1 rest rrest with
         | (.raised, st2) => (.ok none, st2)
         | other => other
       | .ok (false, st1) => (.ok none, st1)) := rfl

theorem get_grill_state_raised_iff (trace : List (HttpAttempt Snap)) :
    ∀ (st : ApiState) (rs : List RefreshSpec),
      ((async_get_grill_state st trace rs).1 = .raised ↔
        truthyStr st.id_token = false) := by
  induction trace with
  | nil =>
    intro st rs
    obtain ⟨tok, cog, gr⟩ := st
    cases tok with
    | none => exact ⟨fun _ => rfl, fun _ => rfl⟩
    | some t =>
      cases t with
      | nil => exact ⟨fun _ => rfl, fun _ => rfl⟩
      | cons c t =>
        constructor
        · intro h
          rw [show (async_get_grill_state ⟨some (c :: t), cog, gr⟩ [] rs).1
              = .outOfTrace from rfl] at h
          exact absurd h (by simp)
        · intro h
          simp [truthyStr] at h
  | cons resp rest ih =>
    intro st rs
    obtain ⟨tok, cog, gr⟩ := st
    cases tok with
    | none => exact ⟨fun _ => rfl, fun _ => rfl⟩
    | some t =>
      cases t with
      | nil => exact ⟨fun _ => rfl, fun _ => rfl⟩
      | cons c t =>
        constructor
        · intro h
          exfalso
          cases resp with
          | exn =>
            rw [show (async_get_grill_state ⟨some (c :: t), cog, gr⟩ (.exn :: rest) rs).1
                = .ok none from rfl] at h
            simp at h
          | status code body =>
            by_cases hauth : code = 401 ∨ code = 403
            · have key : (async_get_grill_state ⟨some (c :: t), cog, gr⟩
                  (.status code body :: rest) rs).1 ≠ .raised := by
                cases rs with
                | nil =>
                  rcases hauth with h4 | h4 <;> subst h4
                  · intro hc
                    rw [show (async_get_grill_state ⟨some (c :: t), cog, gr⟩
                        (.status 401 body :: rest) ([] : List RefreshSpec)).1
                        = .outOfTrace from rfl] at hc
                    simp at hc
                  · intro hc
                    rw [show (async_get_grill_state ⟨some (c :: t), cog, gr⟩
                        (.status 403 body :: rest) ([] : List RefreshSpec)).1
                        = .outOfTrace from rfl] at hc
                    simp at hc
                | cons r rrest =>
                  rcases hauth with h4 | h4 <;> subst h4 <;>
                    [rw [get_grill_state_step_401]; rw [get_grill_state_step_403]] <;>
                    (cases href : async_refresh_token ⟨some (c :: t), cog, gr⟩ r with
                     | error e => simp
                     | ok p =>
                       obtain ⟨b, st1⟩ := p
                       cases b with
                       | false => simp
                       | true =>
                         show (match async_get_grill_state st1 rest rrest with
                             | (.raised, st2) => ((.ok none : CallResult (Option Snap)), st2)
                             | other => other).1 ≠ .raised
                         cases hres : async_get_grill_state st1 rest rrest with
                         | mk v st2 => cases v <;> simp)
              exact key h
            · rw [get_grill_state_step_status] at h
              by_cases h200 : code = 200
              · rw [if_pos h200] at h
                simp at h
              · rw [if_neg h200, if_neg hauth] at h
                by_cases h404 : code = 404
                · rw [if_pos h404] at h
                  simp at h
                · rw [if_neg h404] at h
                  simp at h
        · intro h
          simp [truthyStr] at h

/-- C1 counterexample: a state fetch that receives two consecutive 401s,
with the token refresh reporting success both times, does not yield an
absent snapshot after the second 401: the code is about to issue a third
fetch attempt (the scripted trace of two responses is exhausted). -/
theorem c1_counterexample :
    (async_get_grill_state ⟨some [116], true, []⟩
        [.status 401 ⟨none⟩, .status 401 ⟨none⟩]
        [⟨.renewed (some [116]), .success (some [116])⟩,
         ⟨.renewed (some [116]), .success (some [116])⟩]).1 = .outOfTrace ∧
    (async_get_grill_state ⟨some [116], true, []⟩
        [.status 401 ⟨none⟩, .status 401 ⟨none⟩]
        [⟨.renewed (some [116]), .success (some [116])⟩,
         ⟨.renewed (some [116]), .success (some [116])⟩]).1 ≠ .ok none := by
  exact ⟨rfl, by decide⟩

/-- C1 amended: with a usable (non-empty) token, a 401/403 on a state
fetch triggers a reauth attempt and, whenever the reauth reports success
with a usable token, a retry of the fetch, with no cap on the number of
retries (n+1 consecutive 401s with successful reauths leave the call still
fetching); the call yields an absent snapshot when a reauth attempt raises
or reports failure. -/
theorem c1_reauth_retry :
    (∀ (n : Nat) (c0 : Nat) (t : Str) (c1 : Nat) (tok : Str)
        (gr : List Grill) (au : AuthOutcome),
      (async_get_grill_state ⟨some (c0 :: t), true, gr⟩
        (List.replicate (n+1) (.status 401 ⟨none⟩))
        (List.replicate (n+1) ⟨.renewed (some (c1 :: tok)), au⟩)).1
      = .outOfTrace) ∧
    (∀ (st : ApiState) (r : RefreshSpec) (body : Snap)
        (rest : List (HttpAttempt Snap)) (rs : List RefreshSpec) (e : GMGAuthError),
      truthyStr st.id_token = true → async_refresh_token st r = .error e →
      (async_get_grill_state st (.status 401 body :: rest) (r :: rs)).1 = .ok none) ∧
    (∀ (st st1 : ApiState) (r : RefreshSpec) (body : Snap)
        (rest : List (HttpAttempt Snap)) (rs : List RefreshSpec),
      truthyStr st.id_token = true → async_refresh_token st r = .ok (false, st1) →
      (async_get_grill_state st (.status 401 body :: rest) (r :: rs)).1 = .ok none) := by
  refine ⟨?_, ?_, ?_⟩
  · intro n
    induction n with
    | zero => intro c0 t c1 tok gr au; rfl
    | succ n ih =>
      intro c0 t c1 tok gr au
      rw [show List.replicate (n + 1 + 1) (HttpAttempt.status 401 (⟨none⟩ : Snap))
          = .status 401 ⟨none⟩ :: List.replicate (n + 1) (.status 401 ⟨none⟩) from
          List.replicate_succ _ _,
        show List.replicate (n + 1 + 1) (⟨.renewed (some (c1 :: tok)), au⟩ : RefreshSpec)
          = ⟨.renewed (some (c1 :: tok)), au⟩ ::
            List.replicate (n + 1) ⟨.renewed (some (c1 :: tok)), au⟩ from
          List.replicate_succ _ _,
        get_grill_state_step_401]
      show (match async_get_grill_state ⟨some (c1 :: tok), true, gr⟩
          (List.replicate (n + 1) (.status 401 ⟨none⟩))
          (List.replicate (n + 1) ⟨.renewed (some (c1 :: tok)), au⟩) with
        | (.raised, st2) => ((.ok none : CallResult (Option Snap)), st2)
        | other => other).1 = .outOfTrace
      cases hres : async_get_grill_state ⟨some (c1 :: tok), true, gr⟩
          (List.replicate (n + 1) (.status 401 ⟨none⟩))
          (List.replicate (n + 1) ⟨.renewed (some (c1 :: tok)), au⟩) with
      | mk v st2 =>
        have hv : v = .outOfTrace := by
          have := ih c1 tok c1 tok gr au
          rw [hres] at this
          exact this
        subst hv
        rfl
  · intro st r body rest rs e htok href
    obtain ⟨tok, cog, gr⟩ := st
    cases tok with
    | none => simp [truthyStr] at htok
    | some t =>
      cases t with
      | nil => simp [truthyStr] at htok
      | cons c t =>
        rw [get_grill_state_step_401, href]
  · intro st st1 r body rest rs htok href
    obtain ⟨tok, cog, gr⟩ := st
    cases tok with
    | none => simp [truthyStr] at htok
    | some t =>
      cases t with
      | nil => simp [truthyStr] at htok
      | cons c t =>
        rw [get_grill_state_step_401, href]

/-- Witness for C1 amended: two consecutive 401s with successful reauths
leave the call still fetching; one 401 with a raising reauth, and one 401
with a reauth returning False, each yield an absent snapshot. -/
theorem c1_reauth_retry_witness :
    ((async_get_grill_state ⟨some [116], true, []⟩
        (List.replicate 2 (.status 401 ⟨none⟩))
        (List.replicate 2 ⟨.renewed (some [117]), .success (some [117])⟩)).1
      = .outOfTrace) ∧
    ((truthyStr (⟨some [116], true, []⟩ : ApiState).id_token = true ∧
      async_refresh_token ⟨some [116], true, []⟩ ⟨.raises, .raises⟩ = .error .authFailed) ∧
     (async_get_grill_state ⟨some [116], true, []⟩ [.status 401 ⟨none⟩]
        [⟨.raises, .raises⟩]).1 = .ok none) ∧
    ((truthyStr (⟨some [116], true, []⟩ : ApiState).id_token = true ∧
      async_refresh_token ⟨some [116], true, []⟩ ⟨.raises, .success none⟩
        = .ok (false, ⟨none, true, []⟩)) ∧
     (async_get_grill_state ⟨some [116], true, []⟩ [.status 401 ⟨none⟩]
        [⟨.raises, .success none⟩]).1 = .ok none) :=
  ⟨c1_reauth_retry.1 1 116 [] 117 [] [] (.success (some [117])),
   ⟨⟨rfl, rfl⟩,
    c1_reauth_retry.2.1 ⟨some [116], true, []⟩ ⟨.raises, .raises⟩ ⟨none⟩ [] []
      .authFailed rfl rfl⟩,
   ⟨⟨rfl, rfl⟩,
    c1_reauth_retry.2.2 ⟨some [116], true, []⟩ ⟨none, true, []⟩
      ⟨.raises, .success none⟩ ⟨none⟩ [] [] rfl rfl⟩⟩

theorem send_command_step_status (c : Nat) (t : Str) (cog : Bool) (gr : List Grill)
    (code : Nat) (b : Unit) (rest : List (HttpAttempt Unit)) (rs : List RefreshSpec) :
    async_send_command ⟨some (c :: t), cog, gr⟩ (.status code b :: rest) rs =
      (if code = 200 ∨ code = 201 ∨ code = 202 then
        (.ok true, (⟨some (c :: t), cog, gr⟩ : ApiState))
       else if code = 401 ∨ code = 403 then
         (match rs with
          | [] => (.outOfTrace, (⟨some (c :: t), cog, gr⟩ : ApiState))
          | r :: rrest =>
            match async_refresh_token ⟨some (c :: t), cog, gr⟩ r with
            | .error _ => (.ok false, (⟨some (c :: t), cog, gr⟩ : ApiState))
            | .ok (true, st1) =>
              match async_send_command st1 rest rrest with
              | (.raised, st2) => (.ok false, st2)
              | other => other
            | .ok (false, st1) => (.ok false, st1))
       else (.ok false, (⟨some (c :: t), cog, gr⟩ : ApiState))) := rfl

theorem send_command_step_401 (c : Nat) (t : Str) (cog : Bool) (gr : List Grill)
    (b : Unit) (rest : List (HttpAttempt Unit)) (r : RefreshSpec)
    (rrest : List RefreshSpec) :
    async_send_command ⟨some (c :: t), cog, gr⟩ (.status 401 b :: rest) (r :: rrest) =
      (match async_refresh_token ⟨some (c :: t), cog, gr⟩ r with
       | .error _ => (.ok false, (⟨some (c :: t), cog, gr⟩ : ApiState))
       | .ok (true, st1) =>
         match async_send_command st1 rest rrest with
         | (.raised, st2) => (.ok false, st2)
         | other => other
       | .ok (false, st1) => (.ok false, st1)) := rfl

theorem send_command_step_403 (c : Nat) (t : Str) (cog : Bool) (gr : List Grill)
    (b : Unit) (rest : List (HttpAttempt Unit)) (r : RefreshSpec)
    (rrest : List RefreshSpec) :
    async_send_command ⟨some (c :: t), cog, gr⟩ (.status 403 b :: rest) (r :: rrest) =
      (match async_refresh_token ⟨some (c :: t), cog, gr⟩ r with
       | .error _ => (.ok false, (⟨some (c :: t), cog, gr⟩ : ApiState))
       | .ok (true, st1) =>
         match async_send_command st1 rest rrest with
         | (.raised, st2) => (.ok false, st2)
         | other => other
       | .ok (false, st1) => (.ok false, st1)) := rfl

theorem send_command_raised_iff (trace : List (HttpAttempt Unit)) :
    ∀ (st : ApiState) (rs : List RefreshSpec),
      ((async_send_command st trace rs).1 = .raised ↔
        truthyStr st.id_token = false) := by
  induction trace with
  | nil =>
    intro st rs
    obtain ⟨tok, cog, gr⟩ := st
    cases tok with
    | none => exact ⟨fun _ => rfl, fun _ => rfl⟩
    | some t =>
      cases t with
      | nil => exact ⟨fun _ => rfl, fun _ => rfl⟩
      | cons c t =>
        constructor
        · intro h
          rw [show (async_send_command ⟨some (c :: t), cog, gr⟩ [] rs).1
              = .outOfTrace from rfl] at h
          exact absurd h (by simp)
        · intro h
          simp [truthyStr] at h
  | cons resp rest ih =>
    intro st rs
    obtain ⟨tok, cog, gr⟩ := st
    cases tok with
    | none => exact ⟨fun _ => rfl, fun _ => rfl⟩
    | some t =>
      cases t with
      | nil => exact ⟨fun _ => rfl, fun _ => rfl⟩
      | cons c t =>
        constructor
        · intro h
          exfalso
          cases resp with
          | exn =>
            rw [show (async_send_command ⟨some (c :: t), cog, gr⟩ (.exn :: rest) rs).1
                = .ok false from rfl] at h
            simp at h
          | status code b =>
            by_cases hauth : code = 401 ∨ code = 403
            · have key : (async_send_command ⟨some (c :: t), cog, gr⟩
                  (.status code b :: rest) rs).1 ≠ .raised := by
                cases rs with
                | nil =>
                  rcases hauth with h4 | h4 <;> subst h4
                  · intro hc
                    rw [show (async_send_command ⟨some (c :: t), cog, gr⟩
                        (.status 401 b :: rest) ([] : List RefreshSpec)).1
                        = .outOfTrace from rfl] at hc
                    simp at hc
                  · intro hc
                    rw [show (async_send_command ⟨some (c :: t), cog, gr⟩
                        (.status 403 b :: rest) ([] : List RefreshSpec)).1
                        = .outOfTrace from rfl] at hc
                    simp at hc
                | cons r rrest =>
                  rcases hauth with h4 | h4 <;> subst h4 <;>
                    [rw [send_command_step_401]; rw [send_command_step_403]] <;>
                    (cases href : async_refresh_token ⟨some (c :: t), cog, gr⟩ r with
                     | error e => simp
                     | ok p =>
                       obtain ⟨bb, st1⟩ := p
                       cases bb with
                       | false => simp
                       | true =>
                         show (match async_send_command st1 rest rrest with
                             | (.raised, st2) => ((.ok false : CallResult Bool), st2)
                             | other => other).1 ≠ .raised
                         cases hres : async_send_command st1 rest rrest with
                         | mk v st2 => cases v <;> simp)
              exact key h
            · rw [send_command_step_status] at h
              by_cases h2xx : code = 200 ∨ code = 201 ∨ code = 202
              · rw [if_pos h2xx] at h
                simp at h
              · rw [if_neg h2xx, if_neg hauth] at h
                simp at h
        · intro h
          simp [truthyStr] at h

theorem send_command_true_reaches_2xx (trace : List (HttpAttempt Unit)) :
    ∀ (st : ApiState) (rs : List RefreshSpec),
      (async_send_command st trace rs).1 = .ok true →
      ∃ code b, HttpAttempt.status code b ∈ trace ∧
        (code = 200 ∨ code = 201 ∨ code = 202) := by
  induction trace with
  | nil =>
    intro st rs h
    exfalso
    obtain ⟨tok, cog, gr⟩ := st
    cases tok with
    | none =>
      rw [show (async_send_command ⟨none, cog, gr⟩ [] rs).1 = .raised from rfl] at h
      simp at h
    | some t =>
      cases t with
      | nil =>
        rw [show (async_send_command ⟨some [], cog, gr⟩ [] rs).1 = .raised from rfl] at h
        simp at h
      | cons c t =>
        rw [show (async_send_command ⟨some (c :: t), cog, gr⟩ [] rs).1
            = .outOfTrace from rfl] at h
        simp at h
  | cons resp rest ih =>
    intro st rs h
    obtain ⟨tok, cog, gr⟩ := st
    cases tok with
    | none =>
      rw [show (async_send_command ⟨none, cog, gr⟩ (resp :: rest) rs).1
          = .raised from rfl] at h
      simp at h
    | some t =>
      cases t with
      | nil =>
        rw [show (async_send_command ⟨some [], cog, gr⟩ (resp :: rest) rs).1
            = .raised from rfl] at h
        simp at h
      | cons c t =>
        cases resp with
        | exn =>
          rw [show (async_send_command ⟨some (c :: t), cog, gr⟩ (.exn :: rest) rs).1
              = .ok false from rfl] at h
          simp at h
        | status code b =>
          by_cases h2xx : code = 200 ∨ code = 201 ∨ code = 202
          · exact ⟨code, b, List.mem_cons_self _ _, h2xx⟩
          · by_cases hauth : code = 401 ∨ code = 403
            · have step : ∃ code b, HttpAttempt.status code b ∈ rest ∧
                  (code = 200 ∨ code = 201 ∨ code = 202) := by
                rcases hauth with h4 | h4 <;> subst h4
                · cases rs with
                  | nil =>
                    rw [show (async_send_command ⟨some (c :: t), cog, gr⟩
                        (.status 401 b :: rest) ([] : List RefreshSpec)).1
                        = .outOfTrace from rfl] at h
                    simp at h
                  | cons r rrest =>
                    rw [send_command_step_401] at h
                    cases href : async_refresh_token ⟨some (c :: t), cog, gr⟩ r with
                    | error e =>
                      rw [href] at h
                      simp at h
                    | ok p =>
                      obtain ⟨bb, st1⟩ := p
                      cases bb with
                      | false =>
                        rw [href] at h
                        simp at h
                      | true =>
                        rw [href] at h
                        have h2 : (match async_send_command st1 rest rrest with
                            | (.raised, st2) => ((.ok false : CallResult Bool), st2)
                            | other => other).1 = .ok true := h
                        cases hres : async_send_command st1 rest rrest with
                        | mk v st2 =>
                          rw [hres] at h2
                          cases v with
                          | raised => simp at h2
                          | outOfTrace => simp at h2
                          | ok bv =>
                            simp at h2
                            subst h2
                            exact ih st1 rrest (by rw [hres])
                · cases rs with
                  | nil =>
                    rw [show (async_send_command ⟨some (c :: t), cog, gr⟩
                        (.status 403 b :: rest) ([] : List RefreshSpec)).1
                        = .outOfTrace from rfl] at h
                    simp at h
                  | cons r rrest =>
                    rw [send_command_step_403] at h
                    cases href : async_refresh_token ⟨some (c :: t), cog, gr⟩ r with
                    | error e =>
                      rw [href] at h
                      simp at h
                    | ok p =>
                      obtain ⟨bb, st1⟩ := p
                      cases bb with
                      | false =>
                        rw [href] at h
                        simp at h
                      | true =>
                        rw [href] at h
                        have h2 : (match async_send_command st1 rest rrest with
                            | (.raised, st2) => ((.ok false : CallResult Bool), st2)
                            | other => other).1 = .ok true := h
                        cases hres : async_send_command st1 rest rrest with
                        | mk v st2 =>
                          rw [hres] at h2
                          cases v with
                          | raised => simp at h2
                          | outOfTrace => simp at h2
                          | ok bv =>
                            simp at h2
                            subst h2
                            exact ih st1 rrest (by rw [hres])
              obtain ⟨c2, b2, hmem, hc2⟩ := step
              exact ⟨c2, b2, List.mem_cons_of_mem _ hmem, hc2⟩
            · rw [send_command_step_status, if_neg h2xx, if_neg hauth] at h
              simp at h

/-- C6 counterexample: with the non-null but empty-string token, the
fetch raises GMGApiError before issuing any request (the source guard is
the falsy test `if not self._id_token`), even though a 200 response is
available — so a non-null token does not suffice to prevent raising. -/
theorem c6_counterexample :
    (async_get_grill_state ⟨some [], true, []⟩ [.status 200 ⟨some 1⟩] []).1
      = .raised ∧
    (⟨some [], true, []⟩ : ApiState).id_token ≠ none := by
  exact ⟨rfl, by decide⟩

/-- C6 amended: the state fetcher raises exactly when the token is falsy
(missing or the empty string); with a truthy (non-empty) token, a 200
yields the decoded snapshot, a 404 yields absent, any other non-auth
status yields absent, and a transport exception yields absent — never an
exception. -/
theorem c6_fetch_status_handling :
    (∀ (st : ApiState) (trace : List (HttpAttempt Snap)) (rs : List RefreshSpec),
      ((async_get_grill_state st trace rs).1 = .raised ↔
        truthyStr st.id_token = false)) ∧
    (∀ (c : Nat) (t : Str) (cog : Bool) (gr : List Grill) (rs : List RefreshSpec)
        (body : Snap) (rest : List (HttpAttempt Snap)),
      (async_get_grill_state ⟨some (c :: t), cog, gr⟩ (.status 200 body :: rest) rs).1
        = .ok (some body) ∧
      (async_get_grill_state ⟨some (c :: t), cog, gr⟩ (.status 404 body :: rest) rs).1
        = .ok none ∧
      (async_get_grill_state ⟨some (c :: t), cog, gr⟩ (.exn :: rest) rs).1 = .ok none) ∧
    (∀ (c : Nat) (t : Str) (cog : Bool) (gr : List Grill) (rs : List RefreshSpec)
        (code : Nat) (body : Snap) (rest : List (HttpAttempt Snap)),
      code ≠ 200 → code ≠ 401 → code ≠ 403 →
      (async_get_grill_state ⟨some (c :: t), cog, gr⟩ (.status code body :: rest) rs).1
        = .ok none) := by
  refine ⟨fun st trace rs => get_grill_state_raised_iff trace st rs, ?_, ?_⟩
  · intro c t cog gr rs body rest
    exact ⟨rfl, rfl, rfl⟩
  · intro c t cog gr rs code body rest h200 h401 h403
    rw [get_grill_state_step_status, if_neg h200, if_neg (by simp [h401, h403])]
    split_ifs <;> rfl

/-- Witness for C6 amended at a token-bearing state and a 500 response. -/
theorem c6_fetch_status_handling_witness :
    ((500 ≠ 200) ∧ (500 ≠ 401) ∧ (500 ≠ 403)) ∧
    (async_get_grill_state ⟨some [116], true, []⟩ [.status 500 ⟨none⟩] []).1
      = .ok none :=
  ⟨⟨by decide, by decide, by decide⟩,
   c6_fetch_status_handling.2.2 116 [] true [] [] 500 ⟨none⟩ []
     (by decide) (by decide) (by decide)⟩

/-- C7 counterexample: a command submission that receives two consecutive
401s, with the token refresh reporting success both times, does not return
False after the second 401: the code is about to issue a third attempt
(the scripted trace of two responses is exhausted), so the reauth-and-retry
policy is not a single retry. -/
theorem c7_counterexample :
    (async_send_command ⟨some [116], true, []⟩
        [.status 401 (), .status 401 ()]
        [⟨.renewed (some [116]), .success (some [116])⟩,
         ⟨.renewed (some [116]), .success (some [116])⟩]).1 = .outOfTrace ∧
    (async_send_command ⟨some [116], true, []⟩
        [.status 401 (), .status 401 ()]
        [⟨.renewed (some [116]), .success (some [116])⟩,
         ⟨.renewed (some [116]), .success (some [116])⟩]).1 ≠ .ok false := by
  exact ⟨rfl, by decide⟩

/-- C7 amended: with a usable (non-empty) token, send_command returns true
exactly on a 200/201/202 (it returns true only if some consumed attempt
carried one of those codes, and immediately when the first does); a
401/403 triggers a reauth and, whenever the reauth reports success with a
usable token, an uncapped retry; every other status or a transport
exception returns false; it raises exactly when the token is falsy
(missing or empty). -/
theorem c7_send_command_semantics :
    (∀ (st : ApiState) (trace : List (HttpAttempt Unit)) (rs : List RefreshSpec),
      ((async_send_command st trace rs).1 = .raised ↔
        truthyStr st.id_token = false)) ∧
    (∀ (c : Nat) (t : Str) (cog : Bool) (gr : List Grill) (rs : List RefreshSpec)
        (code : Nat) (rest : List (HttpAttempt Unit)),
      (code = 200 ∨ code = 201 ∨ code = 202) →
      (async_send_command ⟨some (c :: t), cog, gr⟩ (.status code () :: rest) rs).1
        = .ok true) ∧
    (∀ (c : Nat) (t : Str) (cog : Bool) (gr : List Grill) (rs : List RefreshSpec)
        (code : Nat) (rest : List (HttpAttempt Unit)),
      code ≠ 200 → code ≠ 201 → code ≠ 202 → code ≠ 401 → code ≠ 403 →
      (async_send_command ⟨some (c :: t), cog, gr⟩ (.status code () :: rest) rs).1
        = .ok false) ∧
    (∀ (c : Nat) (t : Str) (cog : Bool) (gr : List Grill) (rs : List RefreshSpec)
        (rest : List (HttpAttempt Unit)),
      (async_send_command ⟨some (c :: t), cog, gr⟩ (.exn :: rest) rs).1 = .ok false) ∧
    (∀ (st : ApiState) (r : RefreshSpec) (rest : List (HttpAttempt Unit))
        (rs : List RefreshSpec) (e : GMGAuthError),
      truthyStr st.id_token = true → async_refresh_token st r = .error e →
      (async_send_command st (.status 401 () :: rest) (r :: rs)).1 = .ok false) ∧
    (∀ (n : Nat) (c0 : Nat) (t : Str) (c1 : Nat) (tok : Str)
        (gr : List Grill) (au : AuthOutcome),
      (async_send_command ⟨some (c0 :: t), true, gr⟩
        (List.replicate (n+1) (.status 401 ()))
        (List.replicate (n+1) ⟨.renewed (some (c1 :: tok)), au⟩)).1 = .outOfTrace) ∧
    (∀ (st : ApiState) (trace : List (HttpAttempt Unit)) (rs : List RefreshSpec),
      (async_send_command st trace rs).1 = .ok true →
      ∃ code b, HttpAttempt.status code b ∈ trace ∧
        (code = 200 ∨ code = 201 ∨ code = 202)) := by
  refine ⟨fun st trace rs => send_command_raised_iff trace st rs, ?_, ?_, ?_, ?_, ?_,
    fun st trace rs h => send_command_true_reaches_2xx trace st rs h⟩
  · intro c t cog gr rs code rest h2xx
    rcases h2xx with h | h | h <;> subst h <;> rfl
  · intro c t cog gr rs code rest h200 h201 h202 h401 h403
    rw [send_command_step_status, if_neg (by simp [h200, h201, h202]),
      if_neg (by simp [h401, h403])]
  · intro c t cog gr rs rest
    rfl
  · intro st r rest rs e htok href
    obtain ⟨tok, cog, gr⟩ := st
    cases tok with
    | none => simp [truthyStr] at htok
    | some t =>
      cases t with
      | nil => simp [truthyStr] at htok
      | cons c t =>
        rw [send_command_step_401, href]
  · intro n
    induction n with
    | zero => intro c0 t c1 tok gr au; rfl
    | succ n ih =>
      intro c0 t c1 tok gr au
      rw [show List.replicate (n + 1 + 1) (HttpAttempt.status 401 ())
          = .status 401 () :: List.replicate (n + 1) (.status 401 ()) from
          List.replicate_succ _ _,
        show List.replicate (n + 1 + 1) (⟨.renewed (some (c1 :: tok)), au⟩ : RefreshSpec)
          = ⟨.renewed (some (c1 :: tok)), au⟩ ::
            List.replicate (n + 1) ⟨.renewed (some (c1 :: tok)), au⟩ from
          List.replicate_succ _ _,
        send_command_step_401]
      show (match async_send_command ⟨some (c1 :: tok), true, gr⟩
          (List.replicate (n + 1) (.status 401 ()))
          (List.replicate (n + 1) ⟨.renewed (some (c1 :: tok)), au⟩) with
        | (.raised, st2) => ((.ok false : CallResult Bool), st2)
        | other => other).1 = .outOfTrace
      cases hres : async_send_command ⟨some (c1 :: tok), true, gr⟩
          (List.replicate (n + 1) (.status 401 ()))
          (List.replicate (n + 1) ⟨.renewed (some (c1 :: tok)), au⟩) with
      | mk v st2 =>
        have hv : v = .outOfTrace := by
          have := ih c1 tok c1 tok gr au
          rw [hres] at this
          exact this
        subst hv
        rfl

/-- Witness for C7 amended: a 201 returns true; a 418 returns false; one
401 with a raising reauth returns false. -/
theorem c7_send_command_semantics_witness :
    ((201 = 200 ∨ 201 = 201 ∨ 201 = 202) ∧
     (async_send_command ⟨some [116], true, []⟩ [.status 201 ()] []).1 = .ok true) ∧
    ((418 ≠ 200) ∧ (418 ≠ 201) ∧ (418 ≠ 202) ∧ (418 ≠ 401) ∧ (418 ≠ 403) ∧
     (async_send_command ⟨some [116], true, []⟩ [.status 418 ()] []).1 = .ok false) ∧
    (truthyStr (⟨some [116], true, []⟩ : ApiState).id_token = true ∧
     async_refresh_token ⟨some [116], true, []⟩ ⟨.raises, .raises⟩ = .error .authFailed ∧
     (async_send_command ⟨some [116], true, []⟩ [.status 401 ()]
       [⟨.raises, .raises⟩]).1 = .ok false) :=
  ⟨⟨Or.inr (Or.inl rfl),
    c7_send_command_semantics.2.1 116 [] true [] [] 201 [] (Or.inr (Or.inl rfl))⟩,
   ⟨by decide, by decide, by decide, by decide, by decide,
    c7_send_command_semantics.2.2.1 116 [] true [] [] 418 []
      (by decide) (by decide) (by decide) (by decide) (by decide)⟩,
   ⟨rfl, rfl,
    c7_send_command_semantics.2.2.2.2.1 ⟨some [116], true, []⟩ ⟨.raises, .raises⟩
      [] [] .authFailed rfl rfl⟩⟩

theorem refresh_token_grills (st : ApiState) (r : RefreshSpec) (b : Bool)
    (st1 : ApiState) (h : async_refresh_token st r = .ok (b, st1)) :
    st1.grills = st.grills := by
  obtain ⟨tok0, cog0, gr0⟩ := st
  obtain ⟨rn, au⟩ := r
  cases cog0 <;> cases rn <;> cases au <;>
    first
      | (injection h with h1
         injection h1 with hb hst
         subst hst
         rfl)
      | (exfalso
         simp [async_refresh_token, async_authenticate] at h)

theorem get_grills_step_status (c : Nat) (t : Str) (cog : Bool) (gr : List Grill)
    (code : Nat) (body : List Grill) (rest : List (HttpAttempt (List Grill)))
    (rs : List RefreshSpec) :
    async_get_grills ⟨some (c :: t), cog, gr⟩ (.status code body :: rest) rs =
      (if code = 200 then (.ok body, (⟨some (c :: t), cog, body⟩ : ApiState))
       else if code = 401 ∨ code = 403 then
         (match rs with
          | [] => (.outOfTrace, (⟨some (c :: t), cog, gr⟩ : ApiState))
          | r :: rrest =>
            match async_refresh_token ⟨some (c :: t), cog, gr⟩ r with
            | .error _ => (.ok [], (⟨some (c :: t), cog, gr⟩ : ApiState))
            | .ok (true, st1) =>
              match async_get_grills st1 rest rrest with
              | (.raised, st2) => (.ok [], st2)
              | other => other
            | .ok (false, st1) => (.ok [], st1))
       else (.ok [], (⟨some (c :: t), cog, gr⟩ : ApiState))) := rfl

theorem get_grills_step_401 (c : Nat) (t : Str) (cog : Bool) (gr : List Grill)
    (body : List Grill) (rest : List (HttpAttempt (List Grill)))
    (r : RefreshSpec) (rrest : List RefreshSpec) :
    async_get_grills ⟨some (c :: t), cog, gr⟩ (.status 401 body :: rest) (r :: rrest) =
      (match async_refresh_token ⟨some (c :: t), cog, gr⟩ r with
       | .error _ => (.ok [], (⟨some (c :: t), cog, gr⟩ : ApiState))
       | .ok (true, st1) =>
         match async_get_grills st1 rest rrest with
         | (.raised, st2) => (.ok [], st2)
         | other => other
       | .ok (false, st1) => (.ok [], st1)) := rfl

theorem get_grills_step_403 (c : Nat) (t : Str) (cog : Bool) (gr : List Grill)
    (body : List Grill) (rest : List (HttpAttempt (List Grill)))
    (r : RefreshSpec) (rrest : List RefreshSpec) :
    async_get_grills ⟨some (c :: t), cog, gr⟩ (.status 403 body :: rest) (r :: rrest) =
      (match async_refresh_token ⟨some (c :: t), cog, gr⟩ r with
       | .error _ => (.ok [], (⟨some (c :: t), cog, gr⟩ : ApiState))
       | .ok (true, st1) =>
         match async_get_grills st1 rest rrest with
         | (.raised, st2) => (.ok [], st2)
         | other => other
       | .ok (false, st1) => (.ok [], st1)) := rfl

theorem get_grills_no200 (trace : List (HttpAttempt (List Grill))) :
    ∀ (st : ApiState) (rs : List RefreshSpec),
      (∀ body : List Grill, HttpAttempt.status 200 body ∉ trace) →
      ((async_get_grills st trace rs).2).grills = st.grills := by
  induction trace with
  | nil =>
    intro st rs _
    obtain ⟨tok, cog, gr⟩ := st
    cases tok with
    | none => rfl
    | some t =>
      cases t with
      | nil => rfl
      | cons c t => rfl
  | cons resp rest ih =>
    intro st rs h
    have hrest : ∀ body : List Grill, HttpAttempt.status 200 body ∉ rest := by
      intro body hb
      exact h body (List.mem_cons_of_mem _ hb)
    obtain ⟨tok, cog, gr⟩ := st
    cases tok with
    | none => rfl
    | some t =>
      cases t with
      | nil => rfl
      | cons c t =>
        cases resp with
        | exn => rfl
        | status code body =>
          by_cases h200 : code = 200
          · subst h200
            exact absurd (List.mem_cons_self _ _) (h body)
          · by_cases hauth : code = 401 ∨ code = 403
            · rcases hauth with h4 | h4 <;> subst h4 <;>
                (cases rs with
                 | nil => rfl
                 | cons r rrest =>
                   first
                     | rw [get_grills_step_401]
                     | rw [get_grills_step_403]
                   cases href : async_refresh_token ⟨some (c :: t), cog, gr⟩ r with
                   | error e => rfl
                   | ok p =>
                     obtain ⟨b, st1⟩ := p
                     have hg1 : st1.grills = gr := refresh_token_grills _ _ _ _ href
                     cases b with
                     | false => exact hg1
                     | true =>
                       show (match async_get_grills st1 rest rrest with
                           | (.raised, st2) => ((.ok [] : CallResult (List Grill)), st2)
                           | other => other).2.grills = gr
                       cases hres : async_get_grills st1 rest rrest with
                       | mk v st2 =>
                         have h2 : st2.grills = st1.grills := by
                           have := ih st1 rrest hrest
                           rw [hres] at this
                           exact this
                         cases v <;> exact h2.trans hg1)
            · rw [get_grills_step_status, if_neg h200, if_neg hauth]

/-- C9: `get_cached_grills` is a pure read of the stored directory; with a
usable token, a 200 directory response overwrites the cache with the
decoded body; and a directory fetch whose trace contains no 200 leaves the
cached directory unchanged (in particular when the falsy-token guard
raises before any request). -/
theorem c9_directory_cache :
    (∀ st : ApiState, get_cached_grills st = st.grills) ∧
    (∀ (c : Nat) (t : Str) (cog : Bool) (gr body : List Grill)
        (rest : List (HttpAttempt (List Grill))) (rs : List RefreshSpec),
      get_cached_grills ((async_get_grills ⟨some (c :: t), cog, gr⟩
        (.status 200 body :: rest) rs).2) = body) ∧
    (∀ (trace : List (HttpAttempt (List Grill))) (st : ApiState)
        (rs : List RefreshSpec),
      (∀ body : List Grill, HttpAttempt.status 200 body ∉ trace) →
      ((async_get_grills st trace rs).2).grills = st.grills) := by
  refine ⟨fun st => rfl, ?_, fun trace st rs h => get_grills_no200 trace st rs h⟩
  intro c t cog gr body rest rs
  rfl

/-- Witness for C9 at a failed directory fetch (500 then a transport
exception): the cache still holds the previously stored record. -/
theorem c9_directory_cache_witness :
    (∀ body : List Grill, HttpAttempt.status 200 body ∉
      [HttpAttempt.status 500 ([] : List Grill), .exn]) ∧
    ((async_get_grills ⟨some [116], true, [⟨none, some [97]⟩]⟩
        [.status 500 [], .exn] []).2).grills = [⟨none, some [97]⟩] :=
  ⟨by
    intro body hb
    simp at hb,
   c9_directory_cache.2.2 [.status 500 [], .exn]
     ⟨some [116], true, [⟨none, some [97]⟩]⟩ []
     (by
       intro body hb
       simp at hb)⟩

end GmgCloud
